import Mathlib

/-!
# TwiLight trading pipeline — verification of the specification's claims

Shallow embedding of the signal-generation / risk-validation / execution
pipeline of the TwiLight repository.  Money amounts, prices and volumes are
modelled as rationals (`ℚ`); the relational store's tables are lists of rows;
the pub/sub channels are lists of published messages.  Each agent's
per-cycle computation is embedded as a pure Lean function translated from
the corresponding Python method; the rows an agent reads from the store
(candles, positions, the newest `risk_metrics` row) are passed as arguments,
and the rows it inserts and the messages it publishes are returned.
-/

set_option autoImplicit false

/-- The risk/capital part of `config.json` consumed by the agents
(`initial_capital` and the `risk_management` block). -/
structure Config where
  initial_capital : ℚ
  max_position_size : ℚ
  max_daily_loss : ℚ
  stop_loss_percentage : ℚ
  take_profit_percentage : ℚ
deriving Repr, DecidableEq

/-- `np.mean` of a list of rationals: sum divided by length (for the empty
list this is `0 / 0 = 0`; every use site passes a nonempty slice). -/
def npMean (l : List ℚ) : ℚ := l.sum / l.length

/-- Python's `str.lower()`, as used on the signal side strings (ASCII):
each character lower-cased. -/
def pyLower (s : String) : String := ⟨s.data.map Char.toLower⟩

namespace RiskManager

/-- The four columns of `risk_metrics` read by
`RiskManagerAgent.check_risk_limits`
(`SELECT total_capital, available_capital, total_exposure, daily_pnl`). -/
structure RiskMetricsRow where
  total_capital : ℚ
  available_capital : ℚ
  total_exposure : ℚ
  daily_pnl : ℚ
deriving Repr, DecidableEq

/-- A signal message as carried on the `trading_signals` channel
(symbol, signal side, price, confidence, strategy). -/
structure Signal where
  symbol : String
  signal : String
  price : ℚ
  confidence : ℚ
  strategy : String
deriving Repr, DecidableEq

/-- `RiskManagerAgent.check_risk_limits` (src/agents/risk_manager_agent.py,
lines 17–70).  `latest` is the newest `risk_metrics` row, `none` when the
table is empty (then the config's initial capital is used with zero exposure
and zero P&L).  Returns `true` when the signal passes the risk checks; the
signal itself is not consulted by the checks. -/
def check_risk_limits (cfg : Config) (latest : Option RiskMetricsRow) : Bool :=
  let tc : ℚ := match latest with
    | none => cfg.initial_capital
    | some r => r.total_capital
  let ac : ℚ := match latest with
    | none => cfg.initial_capital
    | some r => r.available_capital
  let te : ℚ := match latest with
    | none => 0
    | some r => r.total_exposure
  let dp : ℚ := match latest with
    | none => 0
    | some r => r.daily_pnl
  if dp < -tc * cfg.max_daily_loss then false
  else
    let max_position_value := tc * cfg.max_position_size
    if ac < max_position_value * (1/10) then false
    else if te > tc * (8/10) then false
    else true

/-- The per-message step of `RiskManagerAgent.run` (lines 117–126): a signal
that passes `check_risk_limits` is republished unchanged to
`approved_signals`; otherwise nothing is published. -/
def process_signal (cfg : Config) (latest : Option RiskMetricsRow)
    (sig : Signal) : List Signal :=
  if check_risk_limits cfg latest then [sig] else []

/-- The columns of `positions` read by `RiskManagerAgent.monitor_positions`
(`SELECT id, symbol, entry_price, current_price, amount ... WHERE status =
'open'`). -/
structure Position where
  id : ℕ
  symbol : String
  entry_price : ℚ
  current_price : ℚ
  amount : ℚ
deriving Repr, DecidableEq

/-- The emergency close message built by `monitor_positions`. -/
structure CloseSignal where
  symbol : String
  signal : String
  reason : String
  position_id : ℕ
  priority : String
deriving Repr, DecidableEq

/-- The close message `monitor_positions` publishes for a position. -/
def close_signal_of (p : Position) : CloseSignal :=
  ⟨p.symbol, "CLOSE", "stop_loss", p.id, "HIGH"⟩

/-- `RiskManagerAgent.monitor_positions` (lines 72–107): for each open
position compute `pnl_pct = (current_price - entry_price) / entry_price` and,
when `pnl_pct ≤ -stop_loss_percentage`, publish an emergency close signal to
`trading_signals`.  The return value is the list of messages published, in
table order. -/
def monitor_positions (cfg : Config) (openPositions : List Position) :
    List CloseSignal :=
  openPositions.filterMap (fun p =>
    let pnl_pct := (p.current_price - p.entry_price) / p.entry_price
    if pnl_pct ≤ -cfg.stop_loss_percentage then some (close_signal_of p)
    else none)

/-- One iteration of `RiskManagerAgent.run`'s loop (lines 117–130) over a
batch of received messages: every received signal goes through
`check_risk_limits` against the same latest `risk_metrics` row, then
`monitor_positions` runs over the open positions.  Result: (messages
published to `approved_signals`, close messages published to
`trading_signals`). -/
def run_cycle (cfg : Config) (latest : Option RiskMetricsRow)
    (incoming : List Signal) (openPositions : List Position) :
    List Signal × List CloseSignal :=
  (incoming.flatMap (process_signal cfg latest),
   monitor_positions cfg openPositions)

end RiskManager

namespace MarketData

/-- A `market_data` row as inserted by `MarketDataAgent.fetch_and_store_data`
(the `id` SERIAL column is generated by the store and omitted). -/
structure Candle where
  symbol : String
  timestamp : ℕ
  «open» : ℚ
  high : ℚ
  low : ℚ
  close : ℚ
  volume : ℚ
  exchange : String
deriving Repr, DecidableEq

/-- PostgreSQL semantics of
`INSERT ... ON CONFLICT DO NOTHING`: the row is appended unless some
declared unique index already holds a conflicting row; with no declared
unique index over the inserted columns, no conflict ever arises and the
insert always appends. -/
def insert_on_conflict_do_nothing (uniq : List (Candle → Candle → Bool))
    (table : List Candle) (c : Candle) : List Candle :=
  if uniq.any (fun k => table.any (fun r => k r c)) then table else table ++ [c]

/-- The unique indexes declared on `market_data` by `init_database`
(src/init_db.py lines 110–123 and 161–163): only the SERIAL primary key on
the auto-generated `id` column (which never conflicts on a fresh insert,
and `id` is not among the inserted columns) and the NON-unique index
`idx_market_data_symbol(symbol, timestamp)`.  No unique index over the
inserted columns exists. -/
def market_data_unique_indexes : List (Candle → Candle → Bool) := []

/-- The natural-key uniqueness the specification claims for `market_data`:
equality on (symbol, timestamp, exchange).  Stated from the spec's words for
comparison with `market_data_unique_indexes`, the schema the code declares. -/
def natural_key_conflict (a b : Candle) : Bool :=
  a.symbol == b.symbol && a.timestamp == b.timestamp && a.exchange == b.exchange

/-- The store-side effect of one symbol's loop body in
`MarketDataAgent.fetch_and_store_data` (src/agents/market_data_agent.py,
lines 36–47): each fetched candle is inserted with
`ON CONFLICT DO NOTHING` against the schema `init_database` declared. -/
def fetch_and_store (table : List Candle) (ohlcv : List Candle) : List Candle :=
  ohlcv.foldl (insert_on_conflict_do_nothing market_data_unique_indexes) table

end MarketData

namespace Scalping

/-- The decision dict built by the simple `ScalpingAgent.calculate_signals`
(src/agents/scalping_agent.py): it is both stored (as the JSON payload of
the `agent_decisions` row) and published to `trading_signals`. -/
structure Decision where
  symbol : String
  signal : String
  price : ℚ
  confidence : ℚ
  strategy : String
deriving Repr, DecidableEq

/-- `ScalpingAgent.calculate_signals` of the simple variant
(src/agents/scalping_agent.py, lines 18–82).  `data` is the result of
`SELECT close, volume ... ORDER BY timestamp DESC LIMIT 20` (newest first).
Fewer than 20 rows: skip.  Momentum = relative change of `prices[0]` vs
`prices[5]`; volume factor = `volumes[0] / np.mean(volumes[1:10])`. -/
def calculate_signals (symbol : String) (data : List (ℚ × ℚ)) :
    Option Decision :=
  if data.length < 20 then none
  else
    let prices := data.map Prod.fst
    let volumes := data.map Prod.snd
    let price_change := (prices.getD 0 0 - prices.getD 5 0) / prices.getD 5 0
    let volumeFactor := volumes.getD 0 0 / npMean ((volumes.drop 1).take 9)
    if price_change > 2/1000 ∧ volumeFactor > 3/2 then
      some ⟨symbol, "BUY", prices.getD 0 0,
        min 80 (60 + |price_change| * 1000), "scalping"⟩
    else if price_change < -(2/1000) ∧ volumeFactor > 3/2 then
      some ⟨symbol, "SELL", prices.getD 0 0,
        min 80 (60 + |price_change| * 1000), "scalping"⟩
    else none

/-- Store/channel effect of processing one symbol in the simple scalping
agent: when `calculate_signals` returns a decision it is appended to the
`agent_decisions` table (represented by its JSON payload) and published to
`trading_signals`; otherwise both are left unchanged. -/
def run_symbol (symbol : String) (data : List (ℚ × ℚ))
    (decisionsTable channel : List Decision) : List Decision × List Decision :=
  match calculate_signals symbol data with
  | some d => (decisionsTable ++ [d], channel ++ [d])
  | none => (decisionsTable, channel)

end Scalping

namespace ScalpingFixed

/-- The decision dict built by the pooled (fixed) variant's
`ScalpingAgent.calculate_signals` (src/agents/scalping_agent_fixed.py); the
`timestamp` field (wall-clock `datetime.now()`) is omitted from the model. -/
structure Decision where
  agent : String
  symbol : String
  signal : String
  price : ℚ
  confidence : ℚ
deriving Repr, DecidableEq

/-- The signal computation of the pooled variant's `calculate_signals`
(src/agents/scalping_agent_fixed.py, lines 53–124), after a store
connection has been obtained.  `data` is
`SELECT close, volume ... ORDER BY timestamp DESC LIMIT 20` (newest first).
Fewer than 10 rows: skip.  `price_change` is in percent; the volume spike
test compares `volumes[0]` against `1.5 * np.mean(volumes[:5])` (the slice
`volumes[:5]` includes the newest volume itself). -/
def signal_of_data (symbol : String) (data : List (ℚ × ℚ)) : Option Decision :=
  if data.length < 10 then none
  else
    let prices := data.map Prod.fst
    let volumes := data.map Prod.snd
    let price_change := ((prices.getD 0 0 - prices.getD 5 0) / prices.getD 5 0) * 100
    let volume_avg := npMean (volumes.take 5)
    let volume_spike := volumes.getD 0 0 > volume_avg * (3/2)
    if price_change > 1/2 ∧ volume_spike then
      some ⟨"scalping", symbol, "buy", prices.getD 0 0, min (|price_change| * 10) 95⟩
    else if price_change < -(1/2) ∧ volume_spike then
      some ⟨"scalping", symbol, "sell", prices.getD 0 0, min (|price_change| * 10) 95⟩
    else none

/-- Trace of one call to the pooled variant's `get_db_connection`
(src/agents/scalping_agent_fixed.py, lines 21–37): how many `getconn`
attempts were made, the sleeps (in seconds) performed between attempts, and
whether a connection was returned (`connected = false` means the final
attempt's exception was re-raised to the caller). -/
structure ConnTrace where
  attempts : ℕ
  sleeps : List ℕ
  connected : Bool
deriving Repr, DecidableEq

/-- `max_retries` in `get_db_connection`. -/
def max_retries : ℕ := 3

/-- The `for attempt in range(max_retries)` loop of `get_db_connection`,
starting at `attempt` with `n` loop iterations remaining.  `succeeds i`
tells whether the `i`-th `getconn`/`SELECT 1` attempt succeeds.  On a failed
attempt the loop sleeps 2 seconds if another attempt remains, otherwise it
re-raises. -/
def get_db_connection_from (succeeds : ℕ → Bool) (attempt : ℕ) :
    ℕ → ConnTrace
  | 0 => ⟨0, [], false⟩
  | n + 1 =>
    if succeeds attempt then ⟨1, [], true⟩
    else if n = 0 then ⟨1, [], false⟩
    else
      let t := get_db_connection_from succeeds (attempt + 1) n
      ⟨1 + t.attempts, 2 :: t.sleeps, t.connected⟩

/-- `get_db_connection` (lines 21–37): up to `max_retries = 3` attempts. -/
def get_db_connection (succeeds : ℕ → Bool) : ConnTrace :=
  get_db_connection_from succeeds 0 max_retries

/-- The body of the `try:` block of the pooled variant's
`calculate_signals`: obtaining a connection may raise (when all
`get_db_connection` attempts failed); with a connection the signal
computation runs. -/
def calculate_signals_try (succeeds : ℕ → Bool) (symbol : String)
    (data : List (ℚ × ℚ)) : Except String (Option Decision) :=
  if (get_db_connection succeeds).connected then
    Except.ok (signal_of_data symbol data)
  else Except.error "Database connection failed after retries"

/-- What the pooled variant's `calculate_signals` returns (or raises) to its
caller: its `except Exception` clause (lines 118–119) catches any exception
of the body — including the one `get_db_connection` re-raises after the
final failed attempt — logs it, and the function falls through to
`return None`; so the caller always receives a normal return. -/
def calculate_signals_fixed (succeeds : ℕ → Bool) (symbol : String)
    (data : List (ℚ × ℚ)) : Except String (Option Decision) :=
  match calculate_signals_try succeeds symbol data with
  | Except.ok r => Except.ok r
  | Except.error _ => Except.ok none

end ScalpingFixed

namespace Swing

/-- The decision dict built by `SwingAgent.calculate_swing_signals`
(src/agents/swing_agent.py): stored as the `agent_decisions` JSON payload
and published to `trading_signals`. -/
structure Decision where
  symbol : String
  signal : String
  price : ℚ
  confidence : ℚ
  strategy : String
  ma_20 : ℚ
  ma_50 : ℚ
  rsi : ℚ
deriving Repr, DecidableEq

/-- `np.diff`: successive differences of a list. -/
def diffs : List ℚ → List ℚ
  | a :: b :: t => (b - a) :: diffs (b :: t)
  | _ => []

/-- The `close` column of the fetched rows (`SELECT close, high, low ...
ORDER BY timestamp DESC LIMIT 100`, newest first). -/
def closesOf (data : List (ℚ × ℚ × ℚ)) : List ℚ := data.map (fun r => r.1)

/-- `ma_20 = np.mean(closes[:20])`. -/
def ma_20 (data : List (ℚ × ℚ × ℚ)) : ℚ := npMean ((closesOf data).take 20)

/-- `ma_50 = np.mean(closes[:50])`. -/
def ma_50 (data : List (ℚ × ℚ × ℚ)) : ℚ := npMean ((closesOf data).take 50)

/-- `gains`: the deltas with negative entries zeroed. -/
def gainsOf (data : List (ℚ × ℚ × ℚ)) : List ℚ :=
  (diffs (closesOf data)).map (fun d => if d < 0 then 0 else d)

/-- `losses`: the deltas with positive entries zeroed, then `abs`. -/
def lossesOf (data : List (ℚ × ℚ × ℚ)) : List ℚ :=
  ((diffs (closesOf data)).map (fun d => if d > 0 then 0 else d)).map
    (fun d => |d|)

/-- `avg_gain = np.mean(gains[:14])`. -/
def avg_gain (data : List (ℚ × ℚ × ℚ)) : ℚ := npMean ((gainsOf data).take 14)

/-- `avg_loss = np.mean(losses[:14])`. -/
def avg_loss (data : List (ℚ × ℚ × ℚ)) : ℚ := npMean ((lossesOf data).take 14)

/-- `rs = avg_gain / avg_loss if avg_loss != 0 else 0`. -/
def rs (data : List (ℚ × ℚ × ℚ)) : ℚ :=
  if avg_loss data ≠ 0 then avg_gain data / avg_loss data else 0

/-- `rsi = 100 - (100 / (1 + rs))`. -/
def rsi (data : List (ℚ × ℚ × ℚ)) : ℚ := 100 - 100 / (1 + rs data)

/-- `SwingAgent.calculate_swing_signals` (src/agents/swing_agent.py,
lines 18–100).  Fewer than 50 rows: skip.  BUY when
`closes[0] > ma_20 > ma_50 and rsi < 70`, SELL when
`closes[0] < ma_20 < ma_50 and rsi > 30`, both with fixed confidence 70. -/
def calculate_swing_signals (symbol : String) (data : List (ℚ × ℚ × ℚ)) :
    Option Decision :=
  if data.length < 50 then none
  else
    let c0 := (closesOf data).getD 0 0
    if c0 > ma_20 data ∧ ma_20 data > ma_50 data ∧ rsi data < 70 then
      some ⟨symbol, "BUY", c0, 70, "swing", ma_20 data, ma_50 data, rsi data⟩
    else if c0 < ma_20 data ∧ ma_20 data < ma_50 data ∧ rsi data > 30 then
      some ⟨symbol, "SELL", c0, 70, "swing", ma_20 data, ma_50 data, rsi data⟩
    else none

/-- Store/channel effect of processing one symbol in the swing agent: a
decision, when produced, is appended to `agent_decisions` (represented by
its JSON payload) and published to `trading_signals`; otherwise both are
unchanged. -/
def run_symbol (symbol : String) (data : List (ℚ × ℚ × ℚ))
    (decisionsTable channel : List Decision) : List Decision × List Decision :=
  match calculate_swing_signals symbol data with
  | some d => (decisionsTable ++ [d], channel ++ [d])
  | none => (decisionsTable, channel)

end Swing

namespace Execution

/-- The fields of an approved-signal message consulted by
`ExecutionAgent.execute_trade` (`signal['symbol']`, `signal['signal']`,
`signal.get('strategy', 'unknown')`). -/
structure ExecSignal where
  symbol : String
  signal : String
  strategy : Option String
deriving Repr, DecidableEq

/-- A `trades` row as inserted by `execute_trade`. -/
structure TradeRow where
  exchange : String
  symbol : String
  side : String
  price : ℚ
  amount : ℚ
  cost : ℚ
  agent : String
  status : String
  order_id : String
deriving Repr, DecidableEq

/-- A `positions` row as inserted by `execute_trade`. -/
structure PositionRow where
  exchange : String
  symbol : String
  side : String
  entry_price : ℚ
  current_price : ℚ
  amount : ℚ
  agent : String
  status : String
deriving Repr, DecidableEq

/-- `ExecutionAgent.execute_trade` (src/agents/execution_agent.py,
lines 33–112).  Arguments supply what the method reads from outside:
`latest_available` = the newest `risk_metrics.available_capital` (none when
the table is empty), `current_price` = `fetch_ticker(symbol)['last']`,
`amount_to_precision` = the exchange's rounding to amount precision,
`order_id` = the fabricated simulated order id (`sim_<unix time>`; the
simulated order's status is `'closed'`).  Returns the `trades` and
`positions` rows inserted.  A side outside buy/sell/close returns
immediately; side `close` falls through both branches and inserts
nothing. -/
def execute_trade (cfg : Config) (latest_available : Option ℚ)
    (exchange_name : String) (current_price : ℚ)
    (amount_to_precision : ℚ → ℚ) (order_id : String) (sig : ExecSignal) :
    List TradeRow × List PositionRow :=
  let side := pyLower sig.signal
  if ¬ (side = "buy" ∨ side = "sell" ∨ side = "close") then ([], [])
  else
    let available_capital := latest_available.getD cfg.initial_capital
    let max_position := available_capital * cfg.max_position_size
    let amount := amount_to_precision (max_position / current_price)
    if side = "buy" then
      ([⟨exchange_name, sig.symbol, "buy", current_price, amount,
          amount * current_price, sig.strategy.getD "unknown", "closed",
          order_id⟩],
       [⟨exchange_name, sig.symbol, "long", current_price, current_price,
          amount, sig.strategy.getD "unknown", "open"⟩])
    else if side = "sell" then
      ([⟨exchange_name, sig.symbol, "sell", current_price, amount,
          amount * current_price, sig.strategy.getD "unknown", "closed",
          order_id⟩], [])
    else ([], [])

end Execution

namespace Portfolio

/-- The columns of `positions` read by
`PortfolioAgent.calculate_portfolio_metrics` (`SELECT symbol, amount,
entry_price, current_price ... WHERE status = 'open'`). -/
structure OpenPositionRow where
  symbol : String
  amount : ℚ
  entry_price : ℚ
  current_price : ℚ
deriving Repr, DecidableEq

/-- The `risk_metrics` row inserted by `calculate_portfolio_metrics`. -/
structure RiskMetricsInsert where
  total_capital : ℚ
  available_capital : ℚ
  total_exposure : ℚ
  daily_pnl : ℚ
  total_pnl : ℚ
deriving Repr, DecidableEq

/-- `PortfolioAgent.calculate_portfolio_metrics`
(src/agents/portfolio_agent.py, lines 15–61).  `latest_total_capital` is the
newest `risk_metrics.total_capital` (none when the table is empty);
`todays_realized_pnl_sum` is `SUM(realized_pnl)` over today's positions
(none for SQL NULL, and a falsy 0 also becomes 0). -/
def calculate_portfolio_metrics (cfg : Config)
    (openPositions : List OpenPositionRow) (latest_total_capital : Option ℚ)
    (todays_realized_pnl_sum : Option ℚ) : RiskMetricsInsert :=
  let total_exposure := (openPositions.map
    (fun r => r.amount * r.current_price)).sum
  let total_capital := latest_total_capital.getD cfg.initial_capital
  let available_capital := total_capital - total_exposure
  let daily_pnl := todays_realized_pnl_sum.getD 0
  let total_pnl := total_capital - cfg.initial_capital
  ⟨total_capital, available_capital, total_exposure, daily_pnl, total_pnl⟩

end Portfolio

namespace RiskManager

lemma check_risk_limits_some_eq_false_iff (cfg : Config) (s : RiskMetricsRow) :
    check_risk_limits cfg (some s) = false ↔
      (s.daily_pnl < -s.total_capital * cfg.max_daily_loss ∨
       s.available_capital < s.total_capital * cfg.max_position_size * (1/10) ∨
       s.total_exposure > s.total_capital * (8/10)) := by
  simp only [check_risk_limits]
  split_ifs with h1 h2 h3 <;> simp_all

lemma process_signal_eq_nil_iff (cfg : Config) (latest : Option RiskMetricsRow)
    (sig : Signal) :
    process_signal cfg latest sig = [] ↔ check_risk_limits cfg latest = false := by
  simp only [process_signal]
  split_ifs with h <;> simp_all

end RiskManager

/-- C1: the Risk Validator drops an incoming signal exactly when
daily P&L < −(max_daily_loss × total capital), or available capital is below
10% of the max single-position notional (total capital × max_position_size),
or total exposure exceeds 80% of total capital; otherwise it republishes the
signal unchanged to the approved channel.  With daily_pnl = −6,
total_capital = 100 and max_daily_loss = 0.05 every signal is rejected. -/
theorem riskValidator_reject_iff :
    (∀ (cfg : Config) (s : RiskManager.RiskMetricsRow)
      (sig : RiskManager.Signal),
      RiskManager.process_signal cfg (some s) sig = [] ↔
        (s.daily_pnl < -(cfg.max_daily_loss * s.total_capital) ∨
         s.available_capital < (s.total_capital * cfg.max_position_size) * (1/10) ∨
         s.total_exposure > s.total_capital * (8/10))) ∧
    (∀ (cfg : Config) (s : RiskManager.RiskMetricsRow)
      (sig : RiskManager.Signal),
      ¬ (s.daily_pnl < -(cfg.max_daily_loss * s.total_capital) ∨
         s.available_capital < (s.total_capital * cfg.max_position_size) * (1/10) ∨
         s.total_exposure > s.total_capital * (8/10)) →
      RiskManager.process_signal cfg (some s) sig = [sig]) ∧
    (∀ (ic mps slp tpp ac te : ℚ) (sig : RiskManager.Signal),
      RiskManager.process_signal ⟨ic, mps, 5/100, slp, tpp⟩
        (some ⟨100, ac, te, -6⟩) sig = []) := by
  have key : ∀ (cfg : Config) (s : RiskManager.RiskMetricsRow)
      (sig : RiskManager.Signal),
      RiskManager.process_signal cfg (some s) sig = [] ↔
        (s.daily_pnl < -(cfg.max_daily_loss * s.total_capital) ∨
         s.available_capital < (s.total_capital * cfg.max_position_size) * (1/10) ∨
         s.total_exposure > s.total_capital * (8/10)) := by
    intro cfg s sig
    rw [RiskManager.process_signal_eq_nil_iff,
      RiskManager.check_risk_limits_some_eq_false_iff,
      show -(cfg.max_daily_loss * s.total_capital)
          = -s.total_capital * cfg.max_daily_loss by ring]
  refine ⟨key, ?_, ?_⟩
  · intro cfg s sig h
    have hc : RiskManager.check_risk_limits cfg (some s) = true := by
      rcases hb : RiskManager.check_risk_limits cfg (some s) with _ | _
      · exact absurd ((key cfg s sig).mp
          ((RiskManager.process_signal_eq_nil_iff cfg (some s) sig).mpr hb)) h
      · rfl
    simp [RiskManager.process_signal, hc]
  · intro ic mps slp tpp ac te sig
    exact (key ⟨ic, mps, 5/100, slp, tpp⟩ ⟨100, ac, te, -6⟩ sig).mpr
      (Or.inl (by norm_num))

/-- C4 counterexample: a position whose unrealized P&L fraction breaches the
take-profit threshold (entry 100, current 120, take_profit_percentage 0.05,
pnl fraction +20%) produces no close signal at all — `monitor_positions`
only tests the stop-loss side, so the claim "one close signal for every
position breaching the stop-loss *or take-profit* threshold" fails. -/
theorem riskValidator_sweep_take_profit_counterexample :
    ((120 : ℚ) - 100) / 100 ≥
      (Config.mk 10000 (1/10) (5/100) (2/100) (5/100)).take_profit_percentage ∧
    RiskManager.monitor_positions (Config.mk 10000 (1/10) (5/100) (2/100) (5/100))
      [⟨1, "BTC/USDT", 100, 120, 1⟩] = [] := by
  constructor
  · norm_num
  · simp only [RiskManager.monitor_positions, List.filterMap]
    norm_num

/-- C4 (amended): on each sweep the Risk Validator publishes exactly one
synthetic high-priority close signal for every open position whose
unrealized P&L fraction is ≤ −stop_loss_percentage (take-profit breaches
trigger nothing); the sweep's output is independent of the risk-metrics
snapshot and of the incoming signals, i.e. it bypasses the threshold
checks; entry 100 / current 97 / stop_loss 0.02 yields exactly one close
signal. -/
theorem riskValidator_sweep_stop_loss :
    (∀ (cfg : Config) (ps : List RiskManager.Position),
      RiskManager.monitor_positions cfg ps =
        (ps.filter (fun p => decide ((p.current_price - p.entry_price) / p.entry_price
            ≤ -cfg.stop_loss_percentage))).map RiskManager.close_signal_of) ∧
    (∀ (cfg : Config) (latest latest' : Option RiskManager.RiskMetricsRow)
      (incoming incoming' : List RiskManager.Signal)
      (ps : List RiskManager.Position),
      (RiskManager.run_cycle cfg latest incoming ps).2 =
        (RiskManager.run_cycle cfg latest' incoming' ps).2) ∧
    (∀ (ic mps mdl tpp am : ℚ) (pid : ℕ) (sym : String),
      RiskManager.monitor_positions ⟨ic, mps, mdl, 2/100, tpp⟩
        [⟨pid, sym, 100, 97, am⟩] = [⟨sym, "CLOSE", "stop_loss", pid, "HIGH"⟩]) := by
  refine ⟨?_, fun _ _ _ _ _ _ => rfl, ?_⟩
  · intro cfg ps
    induction ps with
    | nil => rfl
    | cons p t ih =>
      simp only [RiskManager.monitor_positions, List.filterMap_cons,
        List.filter_cons] at *
      by_cases h : (p.current_price - p.entry_price) / p.entry_price
          ≤ -cfg.stop_loss_percentage
      · simp [h, ih]
      · simp [h, ih]
  · intro ic mps mdl tpp am pid sym
    simp only [RiskManager.monitor_positions, List.filterMap,
      RiskManager.close_signal_of]
    norm_num

/-- C5: for an approved buy signal the Execution Agent reads available
capital from the latest RiskSnapshot (falling back to the configured
initial capital when none exists), computes quantity =
(available capital × max_position_size) / current price rounded to exchange
precision, and inserts exactly one `trades` row with side `'buy'` and
cost = quantity × price plus exactly one `positions` row with status
`'open'` and entry price the fetched current price; a sell signal inserts
exactly one `trades` row and no `positions` row. -/
theorem executionAgent_buy_sell_effects :
    (∀ (cfg : Config) (avail : Option ℚ) (exn : String) (price : ℚ)
      (prec : ℚ → ℚ) (oid : String) (sig : Execution.ExecSignal),
      pyLower sig.signal = "buy" →
      Execution.execute_trade cfg avail exn price prec oid sig =
        ([⟨exn, sig.symbol, "buy", price,
            prec (avail.getD cfg.initial_capital * cfg.max_position_size / price),
            prec (avail.getD cfg.initial_capital * cfg.max_position_size / price)
              * price,
            sig.strategy.getD "unknown", "closed", oid⟩],
         [⟨exn, sig.symbol, "long", price, price,
            prec (avail.getD cfg.initial_capital * cfg.max_position_size / price),
            sig.strategy.getD "unknown", "open"⟩])) ∧
    (∀ (cfg : Config) (avail : Option ℚ) (exn : String) (price : ℚ)
      (prec : ℚ → ℚ) (oid : String) (sig : Execution.ExecSignal),
      pyLower sig.signal = "sell" →
      Execution.execute_trade cfg avail exn price prec oid sig =
        ([⟨exn, sig.symbol, "sell", price,
            prec (avail.getD cfg.initial_capital * cfg.max_position_size / price),
            prec (avail.getD cfg.initial_capital * cfg.max_position_size / price)
              * price,
            sig.strategy.getD "unknown", "closed", oid⟩], [])) := by
  constructor
  · intro cfg avail exn price prec oid sig h
    simp [Execution.execute_trade, h]
  · intro cfg avail exn price prec oid sig h
    simp [Execution.execute_trade, h]

/-- C5 witness: a concrete approved `BUY` (and `SELL`) signal with a 5000
available-capital snapshot, max_position_size 0.1 and price 50000 inserts
exactly the claimed rows (quantity 1/100, cost 500). -/
theorem executionAgent_buy_sell_effects_witness :
    (pyLower "BUY" = "buy" ∧
      Execution.execute_trade ⟨10000, 1/10, 5/100, 2/100, 5/100⟩ (some 5000)
        "kraken" 50000 id "sim_1" ⟨"BTC/USDT", "BUY", some "swing"⟩ =
        ([⟨"kraken", "BTC/USDT", "buy", 50000, 1/100, 500, "swing", "closed",
            "sim_1"⟩],
         [⟨"kraken", "BTC/USDT", "long", 50000, 50000, 1/100, "swing",
            "open"⟩])) ∧
    (pyLower "SELL" = "sell" ∧
      Execution.execute_trade ⟨10000, 1/10, 5/100, 2/100, 5/100⟩ none
        "kraken" 50000 id "sim_2" ⟨"ETH/USDT", "SELL", none⟩ =
        ([⟨"kraken", "ETH/USDT", "sell", 50000, 10000 * (1/10) / 50000,
            10000 * (1/10) / 50000 * 50000, "unknown", "closed", "sim_2"⟩],
          [])) := by
  constructor
  · refine ⟨by decide, ?_⟩
    have := executionAgent_buy_sell_effects.1
      ⟨10000, 1/10, 5/100, 2/100, 5/100⟩ (some 5000) "kraken" 50000 id "sim_1"
      ⟨"BTC/USDT", "BUY", some "swing"⟩ (by decide)
    rw [this]
    norm_num
  · refine ⟨by decide, ?_⟩
    exact executionAgent_buy_sell_effects.2
      ⟨10000, 1/10, 5/100, 2/100, 5/100⟩ none "kraken" 50000 id "sim_2"
      ⟨"ETH/USDT", "SELL", none⟩ (by decide)

/-- C8: a message whose side (lower-cased) is neither `buy` nor `sell` —
in particular the Risk Validator's `CLOSE` messages — causes
`execute_trade` to insert no `trades` row and no `positions` row and to
change no position status: the store is left unchanged. -/
theorem executionAgent_close_noop :
    ∀ (cfg : Config) (avail : Option ℚ) (exn : String) (price : ℚ)
      (prec : ℚ → ℚ) (oid : String) (sig : Execution.ExecSignal),
      pyLower sig.signal ≠ "buy" → pyLower sig.signal ≠ "sell" →
      Execution.execute_trade cfg avail exn price prec oid sig = ([], []) := by
  intro cfg avail exn price prec oid sig h1 h2
  by_cases hc : pyLower sig.signal = "close" <;>
    simp [Execution.execute_trade, h1, h2, hc]

/-- C8 witness: the Risk Validator's `CLOSE` message leaves the store
unchanged. -/
theorem executionAgent_close_noop_witness :
    pyLower "CLOSE" ≠ "buy" ∧ pyLower "CLOSE" ≠ "sell" ∧
    Execution.execute_trade ⟨10000, 1/10, 5/100, 2/100, 5/100⟩ (some 5000)
      "kraken" 50000 id "sim_3" ⟨"BTC/USDT", "CLOSE", none⟩ = ([], []) :=
  ⟨by decide, by decide,
    executionAgent_close_noop ⟨10000, 1/10, 5/100, 2/100, 5/100⟩ (some 5000)
      "kraken" 50000 id "sim_3" ⟨"BTC/USDT", "CLOSE", none⟩
      (by decide) (by decide)⟩

/-- C10: every `risk_metrics` row written by the Portfolio Aggregator
satisfies, by construction, available_capital = total_capital −
total_exposure and total_pnl = total_capital − initial configured capital,
with total_exposure the sum over open positions of amount × current_price. -/
theorem portfolioAggregator_snapshot_invariant :
    ∀ (cfg : Config) (ps : List Portfolio.OpenPositionRow)
      (ltc dps : Option ℚ),
      (Portfolio.calculate_portfolio_metrics cfg ps ltc dps).available_capital
          = (Portfolio.calculate_portfolio_metrics cfg ps ltc dps).total_capital
            - (Portfolio.calculate_portfolio_metrics cfg ps ltc dps).total_exposure ∧
      (Portfolio.calculate_portfolio_metrics cfg ps ltc dps).total_pnl
          = (Portfolio.calculate_portfolio_metrics cfg ps ltc dps).total_capital
            - cfg.initial_capital ∧
      (Portfolio.calculate_portfolio_metrics cfg ps ltc dps).total_exposure
          = (ps.map (fun r => r.amount * r.current_price)).sum :=
  fun _ _ _ _ => ⟨rfl, rfl, rfl⟩

/-- C2 is a code bug: `init_database` declares no unique constraint on
`market_data(symbol, timestamp, exchange)` (only the SERIAL `id` primary key
and a NON-unique index), so the Collector's `ON CONFLICT DO NOTHING` insert
never sees a conflict and replaying the same candle appends a duplicate
row.  With the natural-key unique index the spec describes (and the
Collector's `ON CONFLICT DO NOTHING` clearly intends), the same replay
would leave the table unchanged. -/
theorem collector_replay_duplicates_row :
    MarketData.fetch_and_store
        (MarketData.fetch_and_store []
          [⟨"BTC/USDT", 1700000000, 50000, 50100, 49900, 50050, 10, "kraken"⟩])
        [⟨"BTC/USDT", 1700000000, 50000, 50100, 49900, 50050, 10, "kraken"⟩] =
      [⟨"BTC/USDT", 1700000000, 50000, 50100, 49900, 50050, 10, "kraken"⟩,
       ⟨"BTC/USDT", 1700000000, 50000, 50100, 49900, 50050, 10, "kraken"⟩] ∧
    MarketData.insert_on_conflict_do_nothing [MarketData.natural_key_conflict]
        [⟨"BTC/USDT", 1700000000, 50000, 50100, 49900, 50050, 10, "kraken"⟩]
        ⟨"BTC/USDT", 1700000000, 50000, 50100, 49900, 50050, 10, "kraken"⟩ =
      [⟨"BTC/USDT", 1700000000, 50000, 50100, 49900, 50050, 10, "kraken"⟩] := by
  constructor
  · rfl
  · simp [MarketData.insert_on_conflict_do_nothing,
      MarketData.natural_key_conflict]

/-- C7: a symbol whose available candle set is shorter than the generator's
configured minimum (20 for the simple scalping variant, 10 for the pooled
variant, 50 for the swing variant) yields no `agent_decisions` insert and
no published signal: the decision table and the channel are returned
unchanged (the embedded cycle functions are total, so no error arises). -/
theorem signalGenerator_short_data_no_effects :
    (∀ (sym : String) (data : List (ℚ × ℚ))
      (T C : List Scalping.Decision),
      data.length < 20 → Scalping.run_symbol sym data T C = (T, C)) ∧
    (∀ (sym : String) (data : List (ℚ × ℚ)),
      data.length < 10 → ScalpingFixed.signal_of_data sym data = none) ∧
    (∀ (sym : String) (data : List (ℚ × ℚ × ℚ))
      (T C : List Swing.Decision),
      data.length < 50 → Swing.run_symbol sym data T C = (T, C)) := by
  refine ⟨?_, ?_, ?_⟩
  · intro sym data T C h
    simp [Scalping.run_symbol, Scalping.calculate_signals, h]
  · intro sym data h
    simp [ScalpingFixed.signal_of_data, h]
  · intro sym data T C h
    simp [Swing.run_symbol, Swing.calculate_swing_signals, h]

/-- C7 witness: six candles (fewer than every configured minimum) leave
store and channel unchanged in all three generators. -/
theorem signalGenerator_short_data_no_effects_witness :
    (([((101 : ℚ), (10 : ℚ)), (100, 1), (100, 1), (100, 1), (100, 1),
        (100, 1)] : List (ℚ × ℚ)).length < 20 ∧
      Scalping.run_symbol "BTC/USDT"
        [((101 : ℚ), (10 : ℚ)), (100, 1), (100, 1), (100, 1), (100, 1),
          (100, 1)] [] [] = ([], [])) ∧
    (([] : List (ℚ × ℚ)).length < 10 ∧
      ScalpingFixed.signal_of_data "BTC/USDT" [] = none) ∧
    (([] : List (ℚ × ℚ × ℚ)).length < 50 ∧
      Swing.run_symbol "BTC/USDT" [] [] [] = ([], [])) := by
  refine ⟨⟨by decide, ?_⟩, ⟨by decide, ?_⟩, ⟨by decide, ?_⟩⟩
  · exact signalGenerator_short_data_no_effects.1 "BTC/USDT" _ [] [] (by decide)
  · exact signalGenerator_short_data_no_effects.2.1 "BTC/USDT" [] (by decide)
  · exact signalGenerator_short_data_no_effects.2.2 "BTC/USDT" [] [] []
      (by decide)

/-- C9 counterexample: when every connection attempt fails,
`get_db_connection` does make 3 attempts with two fixed 2-second sleeps and
re-raises (trace `connected = false`), but the pooled `calculate_signals`
CATCHES that exception and returns `None` normally — the error does not
propagate out of the cycle, so it does not terminate the agent. -/
theorem scalpingPool_no_propagation_counterexample :
    ScalpingFixed.get_db_connection (fun _ => false) = ⟨3, [2, 2], false⟩ ∧
    (ScalpingFixed.calculate_signals_fixed (fun _ => false) "BTC/USDT"
        []).isOk = true :=
  ⟨rfl, rfl⟩

/-- C9 (amended): in the pooled variant a store-connection failure is
retried exactly 3 times with a fixed 2-second sleep between attempts; after
the final failed attempt the error is re-raised out of `get_db_connection`
(the `try:` body fails), but `calculate_signals`' blanket `except` clause
catches it and the cycle returns `None` normally — the agent is not
terminated. -/
theorem scalpingPool_retry_behaviour :
    ∀ (succeeds : ℕ → Bool) (sym : String) (data : List (ℚ × ℚ)),
      (∀ i, i < ScalpingFixed.max_retries → succeeds i = false) →
      ScalpingFixed.get_db_connection succeeds = ⟨3, [2, 2], false⟩ ∧
      ScalpingFixed.calculate_signals_try succeeds sym data =
        Except.error "Database connection failed after retries" ∧
      ScalpingFixed.calculate_signals_fixed succeeds sym data =
        Except.ok none := by
  intro succeeds sym data h
  have e : ScalpingFixed.get_db_connection succeeds = ⟨3, [2, 2], false⟩ := by
    have h0 := h 0 (by norm_num [ScalpingFixed.max_retries])
    have h1 := h 1 (by norm_num [ScalpingFixed.max_retries])
    have h2 := h 2 (by norm_num [ScalpingFixed.max_retries])
    simp [ScalpingFixed.get_db_connection, ScalpingFixed.max_retries,
      ScalpingFixed.get_db_connection_from, h0, h1, h2]
  refine ⟨e, ?_, ?_⟩
  · simp [ScalpingFixed.calculate_signals_try, e]
  · simp [ScalpingFixed.calculate_signals_fixed,
      ScalpingFixed.calculate_signals_try, e]

/-- C9 witness: all attempts failing, concretely. -/
theorem scalpingPool_retry_behaviour_witness :
    ScalpingFixed.get_db_connection (fun _ => false) = ⟨3, [2, 2], false⟩ ∧
    ScalpingFixed.calculate_signals_try (fun _ => false) "ETH/USDT"
        [(100, 1)] =
      Except.error "Database connection failed after retries" ∧
    ScalpingFixed.calculate_signals_fixed (fun _ => false) "ETH/USDT"
        [(100, 1)] = Except.ok none :=
  scalpingPool_retry_behaviour (fun _ => false) "ETH/USDT" [(100, 1)]
    (fun _ _ => rfl)

/-- C3 counterexample: with exactly the six (close, volume) rows of the
claim — closes [101, 100, 100, 100, 100, 100] newest first, newest volume
10 against trailing volumes 1 (so volume[0] > 1.5 × mean(volume[1:6])) —
the pooled scalping generator emits NO signal: six rows are fewer than its
minimum of 10, so the symbol is skipped. -/
theorem scalpingFixed_six_rows_counterexample :
    ((10 : ℚ) > (3/2) * npMean [1, 1, 1, 1, 1]) ∧
    ScalpingFixed.signal_of_data "BTC/USDT"
      [(101, 10), (100, 1), (100, 1), (100, 1), (100, 1), (100, 1)] =
      none := by
  constructor
  · norm_num [npMean]
  · rfl

/-- C3 (amended): given at least 10 rows whose six newest closes are
[101, 100, 100, 100, 100, 100] (index 0 newest) and whose volumes satisfy
volume[0] > 1.5 × mean(volume[0:5]) (the code's trailing average includes
the newest volume itself), the pooled scalping generator emits a `buy`
signal at price 101 with confidence min(1% × 10, 95) = 10. -/
theorem scalpingFixed_buy_example :
    ∀ (sym : String) (v0 v1 v2 v3 v4 v5 : ℚ) (rest : List (ℚ × ℚ)),
      4 ≤ rest.length →
      v0 > (3/2) * ((v0 + v1 + v2 + v3 + v4) / 5) →
      ScalpingFixed.signal_of_data sym
          ((101, v0) :: (100, v1) :: (100, v2) :: (100, v3) :: (100, v4) ::
            (100, v5) :: rest) =
        some ⟨"scalping", sym, "buy", 101, 10⟩ := by
  intro sym v0 v1 v2 v3 v4 v5 rest hlen hspike
  have hlen10 : ¬ (((101, v0) :: (100, v1) :: (100, v2) :: (100, v3) ::
      (100, v4) :: (100, v5) :: rest : List (ℚ × ℚ)).length < 10) := by
    simp only [List.length_cons]
    omega
  unfold ScalpingFixed.signal_of_data
  rw [if_neg hlen10]
  simp only [List.map_cons, List.getD_cons_zero, List.getD_cons_succ,
    List.take_cons, npMean]
  rw [if_pos]
  · norm_num
  · constructor
    · norm_num
    · simp only [List.take, List.sum_cons, List.sum_nil, List.length_cons,
        List.length_nil]
      push_cast
      linarith

/-- C3 witness: ten rows, closes [101, 100, ...], volumes [10, 1, ...]. -/
theorem scalpingFixed_buy_example_witness :
    (4 ≤ ([(100, 1), (100, 1), (100, 1), (100, 1)] : List (ℚ × ℚ)).length) ∧
    ((10 : ℚ) > (3/2) * ((10 + 1 + 1 + 1 + 1) / 5)) ∧
    ScalpingFixed.signal_of_data "BTC/USDT"
        ((101, 10) :: (100, 1) :: (100, 1) :: (100, 1) :: (100, 1) ::
          (100, 1) :: [(100, 1), (100, 1), (100, 1), (100, 1)]) =
      some ⟨"scalping", "BTC/USDT", "buy", 101, 10⟩ :=
  ⟨by decide, by norm_num,
    scalpingFixed_buy_example "BTC/USDT" 10 1 1 1 1 1
      [(100, 1), (100, 1), (100, 1), (100, 1)] (by decide) (by norm_num)⟩

lemma sum_lt_length_mul (l : List ℚ) (c : ℚ) (hne : l ≠ [])
    (h : ∀ x ∈ l, x < c) : l.sum < l.length * c := by
  induction l with
  | nil => exact absurd rfl hne
  | cons a t ih =>
    rcases eq_or_ne t [] with rfl | hT
    · simpa using h a (by simp)
    · have ht := ih hT (fun x hx => h x (List.mem_cons_of_mem _ hx))
      have ha := h a (List.mem_cons_self a t)
      simp only [List.sum_cons, List.length_cons]
      push_cast
      linarith

lemma length_mul_lt_mul_sum (A : List ℚ) (s m : ℚ) (hne : A ≠ [])
    (h : ∀ a ∈ A, s < m * a) : A.length * s < m * A.sum := by
  induction A with
  | nil => exact absurd rfl hne
  | cons a t ih =>
    rcases eq_or_ne t [] with rfl | hT
    · simpa using h a (by simp)
    · have ht := ih hT (fun x hx => h x (List.mem_cons_of_mem _ hx))
      have ha := h a (List.mem_cons_self a t)
      simp only [List.sum_cons, List.length_cons, mul_add]
      push_cast
      linarith

lemma diffs_neg_of_chain (l : List ℚ) (h : List.Chain' (· > ·) l) :
    ∀ d ∈ Swing.diffs l, d < 0 := by
  induction l with
  | nil => simp [Swing.diffs]
  | cons a t ih =>
    cases t with
    | nil => simp [Swing.diffs]
    | cons b u =>
      rw [List.chain'_cons] at h
      intro d hd
      rw [show Swing.diffs (a :: b :: u) = (b - a) :: Swing.diffs (b :: u)
        from rfl] at hd
      rcases List.mem_cons.mp hd with rfl | hd'
      · have : a > b := h.1
        linarith
      · exact ih h.2 d hd'

/-- C6: on 100 stored candles whose closes form a strictly monotonic uptrend
(newest first, so the close column is strictly decreasing along the fetched
rows), the Swing Generator emits a BUY signal with confidence exactly 70
(price above MA20 above MA50 and the 14-period RSI below 70); on the
symmetric condition (price below MA20 below MA50 and RSI above 30) it emits
SELL, also with fixed confidence 70. -/
theorem swingGenerator_uptrend_buy :
    (∀ (sym : String) (data : List (ℚ × ℚ × ℚ)),
      data.length = 100 →
      List.Chain' (· > ·) (Swing.closesOf data) →
      (Swing.calculate_swing_signals sym data).map
          (fun d => (d.signal, d.confidence)) = some ("BUY", 70)) ∧
    (∀ (sym : String) (data : List (ℚ × ℚ × ℚ)),
      ¬ data.length < 50 →
      (Swing.closesOf data).getD 0 0 < Swing.ma_20 data →
      Swing.ma_20 data < Swing.ma_50 data →
      Swing.rsi data > 30 →
      (Swing.calculate_swing_signals sym data).map
          (fun d => (d.signal, d.confidence)) = some ("SELL", 70)) := by
  constructor
  · intro sym data hlen hchain
    have hclen : (Swing.closesOf data).length = 100 := by
      simp [Swing.closesOf, hlen]
    have hPW : (Swing.closesOf data).Pairwise (· > ·) :=
      List.chain'_iff_pairwise.mp hchain
    -- the RSI of a strict uptrend is 0: every delta is negative
    have hdneg : ∀ d ∈ Swing.diffs (Swing.closesOf data), d < 0 :=
      diffs_neg_of_chain _ hchain
    have hgain : Swing.avg_gain data = 0 := by
      have hz : ∀ g ∈ (Swing.gainsOf data).take 14, g = 0 := by
        intro g hg
        have hg' := List.take_subset _ _ hg
        simp only [Swing.gainsOf, List.mem_map] at hg'
        obtain ⟨d, hd, rfl⟩ := hg'
        simp [hdneg d hd]
      simp [Swing.avg_gain, npMean, List.sum_eq_zero hz]
    have hrs : Swing.rs data = 0 := by
      unfold Swing.rs
      split_ifs with h
      · rw [hgain, zero_div]
      · rfl
    have hrsi : Swing.rsi data = 0 := by
      rw [Swing.rsi, hrs]
      norm_num
    -- decompose the closes list
    obtain ⟨c0, tail, hct⟩ : ∃ c0 tail, Swing.closesOf data = c0 :: tail := by
      cases h : Swing.closesOf data with
      | nil => rw [h] at hclen; simp at hclen
      | cons a t => exact ⟨a, t, rfl⟩
    have htlen : tail.length = 99 := by
      rw [hct] at hclen; simpa using hclen
    have htail_lt : ∀ x ∈ tail, x < c0 := by
      rw [hct] at hPW
      exact fun x hx => (List.pairwise_cons.mp hPW).1 x hx
    -- ma_20 < closes[0]
    have h19len : (tail.take 19).length = 19 := by
      rw [List.length_take, htlen]
      decide
    have h19ne : tail.take 19 ≠ [] :=
      List.length_pos.mp (by rw [h19len]; norm_num)
    have h19sum : (tail.take 19).sum < 19 * c0 := by
      have := sum_lt_length_mul (tail.take 19) c0 h19ne
        (fun x hx => htail_lt x (List.take_subset _ _ hx))
      rw [h19len] at this
      push_cast at this
      linarith
    have hma20 : Swing.ma_20 data < c0 := by
      rw [Swing.ma_20, hct, show (c0 :: tail).take 20 = c0 :: tail.take 19
        from rfl, npMean]
      rw [List.sum_cons, List.length_cons, h19len]
      rw [div_lt_iff₀ (by norm_num)]
      push_cast
      linarith
    -- ma_50 < ma_20
    have hsplit : (Swing.closesOf data).take 50 =
        (Swing.closesOf data).take 20 ++
          ((Swing.closesOf data).drop 20).take 30 :=
      List.take_add (Swing.closesOf data) 20 30
    have hcross : ∀ a ∈ (Swing.closesOf data).take 20,
        ∀ b ∈ ((Swing.closesOf data).drop 20).take 30, b < a := by
      have hPW' : ((Swing.closesOf data).take 20 ++
          (Swing.closesOf data).drop 20).Pairwise (· > ·) := by
        rw [List.take_append_drop]; exact hPW
      obtain ⟨-, -, hc⟩ := List.pairwise_append.mp hPW'
      exact fun a ha b hb => hc a ha b (List.take_subset _ _ hb)
    have hlen20 : ((Swing.closesOf data).take 20).length = 20 := by
      rw [List.length_take, hclen]
      decide
    have hlen30 : (((Swing.closesOf data).drop 20).take 30).length = 30 := by
      rw [List.length_take, List.length_drop, hclen]
      decide
    have h20ne : (Swing.closesOf data).take 20 ≠ [] :=
      List.length_pos.mp (by rw [hlen20]; norm_num)
    have h30ne : ((Swing.closesOf data).drop 20).take 30 ≠ [] :=
      List.length_pos.mp (by rw [hlen30]; norm_num)
    have hstep1 : ∀ a ∈ (Swing.closesOf data).take 20,
        (((Swing.closesOf data).drop 20).take 30).sum < 30 * a := by
      intro a ha
      have := sum_lt_length_mul _ a h30ne (fun b hb => hcross a ha b hb)
      rw [hlen30] at this
      push_cast at this
      linarith
    have hstep2 : 20 * (((Swing.closesOf data).drop 20).take 30).sum <
        30 * ((Swing.closesOf data).take 20).sum := by
      have := length_mul_lt_mul_sum ((Swing.closesOf data).take 20)
        (((Swing.closesOf data).drop 20).take 30).sum 30 h20ne hstep1
      rw [hlen20] at this
      push_cast at this
      linarith
    have hma2050 : Swing.ma_50 data < Swing.ma_20 data := by
      rw [Swing.ma_20, Swing.ma_50, npMean, npMean, hsplit, List.sum_append,
        List.length_append, hlen20, hlen30]
      rw [div_lt_div_iff₀ (by norm_num) (by norm_num)]
      push_cast
      linarith
    -- take the BUY branch
    have hnot : ¬ data.length < 50 := by omega
    rw [Swing.calculate_swing_signals, if_neg hnot, if_pos]
    · rfl
    · refine ⟨?_, hma2050, by rw [hrsi]; norm_num⟩
      rw [hct, show (c0 :: tail).getD 0 0 = c0 from rfl]
      exact hma20
  · intro sym data h50 h1 h2 h3
    rw [Swing.calculate_swing_signals, if_neg h50, if_neg, if_pos ⟨h1, h2, h3⟩]
    · rfl
    · rintro ⟨ha, -, -⟩
      exact lt_asymm h1 ha

/-- C6 witness: 100 strictly rising candles (newest first: 200, 199, …)
give BUY with confidence 70; a falling zigzag (newest first: 100, 103, 102,
105, …, RSI 75) gives SELL with confidence 70. -/
theorem swingGenerator_uptrend_buy_witness :
    (((List.range 100).map
        (fun i : ℕ => ((200 - (i : ℚ)), (200 - (i : ℚ)), (200 - (i : ℚ))))).length
        = 100 ∧
      List.Chain' (· > ·) (Swing.closesOf ((List.range 100).map
        (fun i : ℕ => ((200 - (i : ℚ)), (200 - (i : ℚ)), (200 - (i : ℚ)))))) ∧
      (Swing.calculate_swing_signals "BTC/USDT" ((List.range 100).map
        (fun i : ℕ => ((200 - (i : ℚ)), (200 - (i : ℚ)), (200 - (i : ℚ)))))).map
        (fun d => (d.signal, d.confidence)) = some ("BUY", 70)) ∧
    (¬ ((List.range 50).map
        (fun i : ℕ => ((100 + (i : ℚ) + if i % 2 = 1 then 2 else 0),
          (100 + (i : ℚ) + if i % 2 = 1 then 2 else 0),
          (100 + (i : ℚ) + if i % 2 = 1 then 2 else 0)))).length < 50 ∧
      Swing.rsi ((List.range 50).map
        (fun i : ℕ => ((100 + (i : ℚ) + if i % 2 = 1 then 2 else 0),
          (100 + (i : ℚ) + if i % 2 = 1 then 2 else 0),
          (100 + (i : ℚ) + if i % 2 = 1 then 2 else 0)))) > 30 ∧
      (Swing.calculate_swing_signals "ETH/USDT" ((List.range 50).map
        (fun i : ℕ => ((100 + (i : ℚ) + if i % 2 = 1 then 2 else 0),
          (100 + (i : ℚ) + if i % 2 = 1 then 2 else 0),
          (100 + (i : ℚ) + if i % 2 = 1 then 2 else 0))))).map
        (fun d => (d.signal, d.confidence)) = some ("SELL", 70)) := by
  have hch : List.Chain' (· > ·) (Swing.closesOf ((List.range 100).map
      (fun i : ℕ => ((200 - (i : ℚ)), (200 - (i : ℚ)), (200 - (i : ℚ)))))) := by
    rw [Swing.closesOf, List.map_map]
    exact List.chain'_iff_pairwise.mpr
      ((List.pairwise_lt_range 100).map _
        (fun a b h => sub_lt_sub_left (by exact_mod_cast h) 200))
  refine ⟨⟨by simp, hch,
    swingGenerator_uptrend_buy.1 "BTC/USDT" _ (by simp) hch⟩,
    ⟨by simp, ?_,
    swingGenerator_uptrend_buy.2 "ETH/USDT" _ (by simp) ?_ ?_ ?_⟩⟩
  · norm_num [Swing.rsi, Swing.rs, Swing.avg_gain, Swing.avg_loss,
      Swing.gainsOf, Swing.lossesOf, Swing.diffs, Swing.closesOf, npMean,
      List.range_succ]
  · norm_num [Swing.ma_20, Swing.closesOf, npMean, List.range_succ]
  · norm_num [Swing.ma_20, Swing.ma_50, Swing.closesOf, npMean,
      List.range_succ]
  · norm_num [Swing.rsi, Swing.rs, Swing.avg_gain, Swing.avg_loss,
      Swing.gainsOf, Swing.lossesOf, Swing.diffs, Swing.closesOf, npMean,
      List.range_succ]
